import Mathlib

/-
Shallow embedding of `src/notes_server.py` (mcp-notes-server).

The server keeps a single in-memory Python dict `notes_storage : Dict[str, str]`
and exposes four MCP handlers:

  * `handle_list_resources()`  — one resource descriptor per stored note id;
  * `handle_read_resource(uri)` — raw body, or raises `ValueError` (modelled
    with `Except String`) on a bad scheme / missing note;
  * `handle_call_tool(name, arguments)` — a dispatcher over the four tool
    names `create_note`, `get_note`, `list_notes`, `delete_note`, always
    returning a one-element list of `TextContent`.

A Python dict is modelled as an association list in insertion order:
lookup finds the first binding, assignment overwrites in place, insertion
appends at the end, `del` removes the binding — exactly CPython's observable
dict semantics for `keys()` enumeration order.  Python string operations are
modelled on the character list (`str.startswith` is a character-list prefix
test, `uri[7:]` drops seven characters), matching Python's code-point view
of strings.
-/

namespace NotesServer

/-- A Python `Dict[str, str]`, kept in insertion order. -/
abbrev Dict := List (String × String)

/-- `d.get(k)` / `d[k]`: the first binding of `k`, if any. -/
def Dict.get : Dict → String → Option String
  | [], _ => none
  | p :: rest, k => if p.1 = k then some p.2 else Dict.get rest k

/-- `d[k] = v`: overwrite in place if `k` is bound, else append at the end. -/
def Dict.set : Dict → String → String → Dict
  | [], k, v => [(k, v)]
  | p :: rest, k, v => if p.1 = k then (k, v) :: rest else p :: Dict.set rest k v

/-- `del d[k]`: remove the binding of `k` (first occurrence). -/
def Dict.del : Dict → String → Dict
  | [], _ => []
  | p :: rest, k => if p.1 = k then rest else p :: Dict.del rest k

/-- `d.keys()` in enumeration (insertion) order. -/
def Dict.keys (d : Dict) : List String := d.map Prod.fst

/-- Python `str.startswith`: prefix test on the sequence of characters. -/
def pyStartswith (s p : String) : Bool := p.data.isPrefixOf s.data

/-- Python slicing `s[n:]`: drop the first `n` characters. -/
def pyDrop (s : String) (n : Nat) : String := String.mk (s.data.drop n)

/-- `mcp.types.TextContent`: the `type` field is always `"text"` here. -/
structure TextContent where
  type : String
  text : String
deriving DecidableEq, Repr

/-- `types.TextContent(type="text", text=s)`. -/
def textContent (s : String) : TextContent := { type := "text", text := s }

/-- `mcp.types.Resource` (the four fields the server fills in). -/
structure Resource where
  uri : String
  name : String
  description : String
  mimeType : String
deriving DecidableEq, Repr

/-- The seed notes the process starts with (`notes_storage`'s initializer). -/
def notes_storage : Dict :=
  [("welcome", "Welcome to the MCP Notes Server! This is your first note."),
   ("meeting-notes", "Team Meeting - June 10, 2025\n- Discussed Q2 goals\n- New project timeline: 3 months\n- Budget approved: $50,000\n- Next meeting: June 17th"),
   ("todo-list", "Daily Tasks:\n1. Review MCP server implementation\n2. Test Claude Desktop integration\n3. Add error handling\n4. Write documentation\n5. Deploy to production"),
   ("project-ideas", "Future Project Ideas:\n- Database integration MCP server\n- File system browser MCP server\n- API client MCP server\n- Calendar integration\n- Task management system"),
   ("code-snippets", "Useful Code Snippets:\n- Python async/await patterns\n- JSON-RPC implementation\n- Error handling best practices\n- Testing strategies"),
   ("research-notes", "MCP Research Notes:\n- Model Context Protocol enables AI to access external data\n- Secure communication through stdio\n- Resource and tool-based architecture\n- Growing ecosystem of MCP servers"),
   ("personal-journal", "Personal Development Log:\nToday I learned about MCP servers and how they bridge AI with real-world data.\nThe architecture is elegant - resources for data, tools for actions.\nLooking forward to building more complex integrations.")]

/-- `handle_list_resources`: one descriptor per id of the store, in
enumeration order. -/
def handle_list_resources (store : Dict) : List Resource :=
  (Dict.keys store).map (fun note_id =>
    { uri := "note://" ++ note_id,
      name := "Note: " ++ note_id,
      description := "A note with ID " ++ note_id,
      mimeType := "text/plain" })

/-- `handle_read_resource`: a raised `ValueError` is `Except.error` (a
protocol-level failure), a returned body is `Except.ok`. -/
def handle_read_resource (uri : String) (store : Dict) : Except String String :=
  if pyStartswith uri "note://" = false then
    Except.error ("Unsupported URI scheme: " ++ uri)
  else
    let note_id := pyDrop uri 7
    match Dict.get store note_id with
    | none => Except.error ("Note not found: " ++ note_id)
    | some body => Except.ok body

/-- `handle_call_tool(name, arguments)` with the store passed (and returned)
explicitly.  Python's `if not x` on an optional string is true exactly when
the key is absent or its value is the empty string, which is what the
`match`/`= ""` combination below tests. -/
def handle_call_tool (name : String) (arguments : Dict) (store : Dict) :
    List TextContent × Dict :=
  if name = "create_note" then
    match Dict.get arguments "note_id", Dict.get arguments "content" with
    | some note_id, some content =>
      if note_id = "" || content = "" then
        ([textContent "Error: Both note_id and content are required"], store)
      else
        ([textContent ("Note '" ++ note_id ++ "' created successfully")],
         Dict.set store note_id content)
    | _, _ =>
      ([textContent "Error: Both note_id and content are required"], store)
  else if name = "get_note" then
    match Dict.get arguments "note_id" with
    | some note_id =>
      if note_id = "" then
        ([textContent "Error: note_id is required"], store)
      else
        match Dict.get store note_id with
        | none => ([textContent ("Error: Note '" ++ note_id ++ "' not found")], store)
        | some body =>
          ([textContent ("Note '" ++ note_id ++ "':\n" ++ body)], store)
    | none => ([textContent "Error: note_id is required"], store)
  else if name = "list_notes" then
    if store.isEmpty then
      ([textContent "No notes available"], store)
    else
      let note_list :=
        String.intercalate "\n" ((Dict.keys store).map (fun note_id => "- " ++ note_id))
      ([textContent ("Available notes:\n" ++ note_list)], store)
  else if name = "delete_note" then
    match Dict.get arguments "note_id" with
    | some note_id =>
      if note_id = "" then
        ([textContent "Error: note_id is required"], store)
      else
        match Dict.get store note_id with
        | none => ([textContent ("Error: Note '" ++ note_id ++ "' not found")], store)
        | some _ =>
          ([textContent ("Note '" ++ note_id ++ "' deleted successfully")],
           Dict.del store note_id)
    | none => ([textContent "Error: note_id is required"], store)
  else
    ([textContent ("Error: Unknown tool '" ++ name ++ "'")], store)

/-! Helper lemmas about the dict model. -/

theorem Dict.keys_nil : Dict.keys [] = [] := rfl

theorem Dict.keys_cons (p : String × String) (rest : Dict) :
    Dict.keys (p :: rest) = p.1 :: Dict.keys rest := rfl

theorem Dict.get_set_self (d : Dict) (k v : String) :
    Dict.get (Dict.set d k v) k = some v := by
  induction d with
  | nil => simp [Dict.set, Dict.get]
  | cons p rest ih =>
    by_cases h : p.1 = k
    · simp [Dict.set, Dict.get, h]
    · simp [Dict.set, Dict.get, h, ih]

theorem Dict.get_eq_none (d : Dict) (k : String) (h : k ∉ Dict.keys d) :
    Dict.get d k = none := by
  induction d with
  | nil => rfl
  | cons p rest ih =>
    rw [Dict.keys_cons, List.mem_cons, not_or] at h
    simp only [Dict.get]
    rw [if_neg (fun hk => h.1 hk.symm)]
    exact ih h.2

theorem Dict.get_isSome_of_mem (d : Dict) (k : String) (h : k ∈ Dict.keys d) :
    (Dict.get d k).isSome = true := by
  induction d with
  | nil => simp [Dict.keys_nil] at h
  | cons p rest ih =>
    rw [Dict.keys_cons, List.mem_cons] at h
    simp only [Dict.get]
    by_cases hp : p.1 = k
    · rw [if_pos hp]; rfl
    · rw [if_neg hp]
      exact ih (h.resolve_left (fun hk => hp hk.symm))

theorem Dict.keys_set (d : Dict) (k v : String) :
    Dict.keys (Dict.set d k v) =
      if k ∈ Dict.keys d then Dict.keys d else Dict.keys d ++ [k] := by
  induction d with
  | nil => simp [Dict.set, Dict.keys]
  | cons p rest ih =>
    by_cases hp : p.1 = k
    · rw [show Dict.set (p :: rest) k v = (k, v) :: rest by simp [Dict.set, hp]]
      rw [Dict.keys_cons, Dict.keys_cons]
      rw [if_pos (by rw [List.mem_cons]; exact Or.inl hp.symm)]
      rw [hp]
    · rw [show Dict.set (p :: rest) k v = p :: Dict.set rest k v by simp [Dict.set, hp]]
      rw [Dict.keys_cons, Dict.keys_cons, ih]
      by_cases hk : k ∈ Dict.keys rest
      · rw [if_pos hk, if_pos (by rw [List.mem_cons]; exact Or.inr hk)]
      · rw [if_neg hk,
            if_neg (by rw [List.mem_cons, not_or]; exact ⟨fun h => hp h.symm, hk⟩)]
        rw [List.cons_append]

theorem Dict.nodup_keys_set (d : Dict) (k v : String)
    (h : (Dict.keys d).Nodup) : (Dict.keys (Dict.set d k v)).Nodup := by
  rw [Dict.keys_set]
  by_cases hk : k ∈ Dict.keys d
  · rwa [if_pos hk]
  · rw [if_neg hk, List.nodup_append]
    refine ⟨h, List.nodup_singleton k, fun a ha hak => ?_⟩
    rw [List.mem_singleton] at hak
    exact hk (hak ▸ ha)

theorem Dict.get_del_self (d : Dict) (k : String) (h : (Dict.keys d).Nodup) :
    Dict.get (Dict.del d k) k = none := by
  induction d with
  | nil => rfl
  | cons p rest ih =>
    rw [Dict.keys_cons, List.nodup_cons] at h
    by_cases hp : p.1 = k
    · rw [show Dict.del (p :: rest) k = rest by simp [Dict.del, hp]]
      exact Dict.get_eq_none rest k (hp ▸ h.1)
    · rw [show Dict.del (p :: rest) k = p :: Dict.del rest k by simp [Dict.del, hp]]
      simp only [Dict.get]
      rw [if_neg hp]
      exact ih h.2

theorem Dict.not_mem_keys_del (d : Dict) (k : String)
    (h : (Dict.keys d).Nodup) : k ∉ Dict.keys (Dict.del d k) := by
  intro hmem
  have hsome := Dict.get_isSome_of_mem (Dict.del d k) k hmem
  rw [Dict.get_del_self d k h] at hsome
  exact Bool.noConfusion hsome

/-! Helper lemmas about the embedded Python string operations. -/

theorem pyStartswith_append (p s : String) : pyStartswith (p ++ s) p = true := by
  rw [pyStartswith, String.data_append, List.isPrefixOf_iff_prefix]
  exact List.prefix_append p.data s.data

theorem pyDrop_note_append (s : String) : pyDrop ("note://" ++ s) 7 = s := by
  rw [pyDrop, String.data_append,
      show (7 : Nat) = ("note://").data.length from rfl, List.drop_left]

theorem string_append_left_cancel (a b c : String) (h : a ++ b = a ++ c) : b = c := by
  have hd := congrArg String.data h
  rw [String.data_append, String.data_append] at hd
  exact String.ext (List.append_cancel_left hd)

theorem Dict.mem_keys_of_get (d : Dict) (k v : String)
    (h : Dict.get d k = some v) : k ∈ Dict.keys d := by
  induction d with
  | nil => exact absurd h (by simp [Dict.get])
  | cons p rest ih =>
    rw [Dict.keys_cons, List.mem_cons]
    by_cases hp : p.1 = k
    · exact Or.inl hp.symm
    · simp only [Dict.get] at h
      rw [if_neg hp] at h
      exact Or.inr (ih h)

theorem notfound_msg_ne_scheme_msg (a b : String) :
    ("Note not found: " ++ a) ≠ ("Unsupported URI scheme: " ++ b) := by
  intro h
  have hd := congrArg String.data h
  rw [String.data_append, String.data_append] at hd
  have e1 : ("Note not found: ").data = 'N' :: ("ote not found: ").data := rfl
  have e2 : ("Unsupported URI scheme: ").data =
      'U' :: ("nsupported URI scheme: ").data := rfl
  rw [e1, e2, List.cons_append, List.cons_append] at hd
  simp at hd

/-! The claims. -/

/-- C1: creating a note under id `x` with body `a`, then again under `x` with
body `b`, succeeds both times with the text "Note 'x' created successfully",
and a subsequent `get_note` for `x` returns the text carrying body `b`:
`create_note` on an existing id overwrites (upsert, not reject).  Ids and
bodies are non-empty per the data model. -/
theorem create_overwrite_then_get (store : Dict) (x a b : String)
    (hx : x ≠ "") (ha : a ≠ "") (hb : b ≠ "") :
    (handle_call_tool "create_note" [("note_id", x), ("content", a)] store).1 =
      [textContent ("Note '" ++ x ++ "' created successfully")] ∧
    (handle_call_tool "create_note" [("note_id", x), ("content", b)]
        (handle_call_tool "create_note" [("note_id", x), ("content", a)] store).2).1 =
      [textContent ("Note '" ++ x ++ "' created successfully")] ∧
    handle_call_tool "get_note" [("note_id", x)]
        (handle_call_tool "create_note" [("note_id", x), ("content", b)]
          (handle_call_tool "create_note" [("note_id", x), ("content", a)] store).2).2 =
      ([textContent ("Note '" ++ x ++ "':\n" ++ b)],
       (handle_call_tool "create_note" [("note_id", x), ("content", b)]
         (handle_call_tool "create_note" [("note_id", x), ("content", a)] store).2).2) := by
  have hargs : ∀ c : String,
      Dict.get [("note_id", x), ("content", c)] "note_id" = some x := fun _ => rfl
  have hargc : ∀ c : String,
      Dict.get [("note_id", x), ("content", c)] "content" = some c := by
    intro c
    simp [Dict.get]
  have hone : ∀ c : String, c ≠ "" →
      handle_call_tool "create_note" [("note_id", x), ("content", c)] store =
        ([textContent ("Note '" ++ x ++ "' created successfully")],
         Dict.set store x c) := by
    intro c hc
    simp [handle_call_tool, hargs c, hargc c, hx, hc]
  refine ⟨by rw [hone a ha], ?_, ?_⟩
  · rw [hone a ha]
    simp [handle_call_tool, hargs b, hargc b, hx, hb]
  · rw [hone a ha]
    have h2 : handle_call_tool "create_note" [("note_id", x), ("content", b)]
        (Dict.set store x a) =
        ([textContent ("Note '" ++ x ++ "' created successfully")],
         Dict.set (Dict.set store x a) x b) := by
      simp [handle_call_tool, hargs b, hargc b, hx, hb]
    rw [h2]
    simp [handle_call_tool, Dict.get, hx, Dict.get_set_self]

/-- C1 witness: the theorem applied at `x = "x"`, `a = "a"`, `b = "b"` on the
empty store. -/
theorem create_overwrite_then_get_witness :
    (handle_call_tool "create_note" [("note_id", "x"), ("content", "a")] []).1 =
      [textContent ("Note '" ++ "x" ++ "' created successfully")] ∧
    (handle_call_tool "create_note" [("note_id", "x"), ("content", "b")]
        (handle_call_tool "create_note" [("note_id", "x"), ("content", "a")] []).2).1 =
      [textContent ("Note '" ++ "x" ++ "' created successfully")] ∧
    handle_call_tool "get_note" [("note_id", "x")]
        (handle_call_tool "create_note" [("note_id", "x"), ("content", "b")]
          (handle_call_tool "create_note" [("note_id", "x"), ("content", "a")] []).2).2 =
      ([textContent ("Note '" ++ "x" ++ "':\n" ++ "b")],
       (handle_call_tool "create_note" [("note_id", "x"), ("content", "b")]
         (handle_call_tool "create_note" [("note_id", "x"), ("content", "a")] []).2).2) :=
  create_overwrite_then_get [] "x" "a" "b" (by decide) (by decide) (by decide)

/-- C2: `create_note` with `note_id` or `content` absent or equal to the empty
string returns exactly the text "Error: Both note_id and content are required"
and leaves the store exactly as it was. -/
theorem create_note_missing_args (store arguments : Dict)
    (h : Dict.get arguments "note_id" = none ∨
         Dict.get arguments "note_id" = some "" ∨
         Dict.get arguments "content" = none ∨
         Dict.get arguments "content" = some "") :
    handle_call_tool "create_note" arguments store =
      ([textContent "Error: Both note_id and content are required"], store) := by
  rcases h with h | h | h | h
  · simp [handle_call_tool, h]
  · cases hc : Dict.get arguments "content" <;> simp [handle_call_tool, h, hc]
  · cases hn : Dict.get arguments "note_id" <;> simp [handle_call_tool, h, hn]
  · cases hn : Dict.get arguments "note_id" <;> simp [handle_call_tool, h, hn]

/-- C2 witness: `content` present but `note_id` absent, on the empty store. -/
theorem create_note_missing_args_witness :
    handle_call_tool "create_note" [("content", "c")] [] =
      ([textContent "Error: Both note_id and content are required"], []) :=
  create_note_missing_args [] [("content", "c")] (Or.inl rfl)

/-- C5: `list_notes` returns exactly "No notes available" on an empty store,
and otherwise "Available notes:" followed by one "- <id>" line per stored id,
newline-joined, in store enumeration order; the store is returned unchanged. -/
theorem list_notes_spec (store arguments : Dict) :
    (store.isEmpty = true →
      handle_call_tool "list_notes" arguments store =
        ([textContent "No notes available"], store)) ∧
    (store.isEmpty = false →
      handle_call_tool "list_notes" arguments store =
        ([textContent ("Available notes:\n" ++
            String.intercalate "\n"
              ((Dict.keys store).map (fun note_id => "- " ++ note_id)))],
         store)) := by
  constructor <;> intro h <;> simp [handle_call_tool, h]

/-- C5 witness: the theorem's empty branch at the empty store, and its
non-empty branch at the one-note store `[("a", "b")]`. -/
theorem list_notes_spec_witness :
    handle_call_tool "list_notes" [] [] = ([textContent "No notes available"], []) ∧
    handle_call_tool "list_notes" [] [("a", "b")] =
      ([textContent ("Available notes:\n" ++
          String.intercalate "\n"
            ((Dict.keys [("a", "b")]).map (fun note_id => "- " ++ note_id)))],
       [("a", "b")]) :=
  ⟨(list_notes_spec [] []).1 rfl, (list_notes_spec [("a", "b")] []).2 rfl⟩

/-- C8: any tool name other than the four known ones yields the successful
text result "Error: Unknown tool '<name>'" (an ordinary result, not a raised
error) and leaves the store exactly as it was. -/
theorem unknown_tool (name : String) (arguments store : Dict)
    (h1 : name ≠ "create_note") (h2 : name ≠ "get_note")
    (h3 : name ≠ "list_notes") (h4 : name ≠ "delete_note") :
    handle_call_tool name arguments store =
      ([textContent ("Error: Unknown tool '" ++ name ++ "'")], store) := by
  simp [handle_call_tool, h1, h2, h3, h4]

/-- C8 witness: the tool name "bogus" with empty arguments on the empty
store. -/
theorem unknown_tool_witness :
    handle_call_tool "bogus" [] [] =
      ([textContent ("Error: Unknown tool '" ++ "bogus" ++ "'")], []) :=
  unknown_tool "bogus" [] [] (by decide) (by decide) (by decide) (by decide)

/-- C10: `get_note` and `delete_note` treat a `note_id` argument bound to the
empty string exactly like an absent one: both return "Error: note_id is
required" (not the not-found text) and leave the store exactly as it was. -/
theorem empty_note_id_like_missing (store arguments : Dict)
    (h : Dict.get arguments "note_id" = some "") :
    handle_call_tool "get_note" arguments store =
      ([textContent "Error: note_id is required"], store) ∧
    handle_call_tool "delete_note" arguments store =
      ([textContent "Error: note_id is required"], store) := by
  constructor <;> simp [handle_call_tool, h]

/-- C10 witness: `note_id` bound to `""` on the empty store. -/
theorem empty_note_id_like_missing_witness :
    handle_call_tool "get_note" [("note_id", "")] [] =
      ([textContent "Error: note_id is required"], []) ∧
    handle_call_tool "delete_note" [("note_id", "")] [] =
      ([textContent "Error: note_id is required"], []) :=
  empty_note_id_like_missing [] [("note_id", "")] rfl

/-- C3: creating note `y` (body `z`) and then deleting it reports
"Note 'y' deleted successfully"; afterwards the `list_notes` lines contain no
"- y" line and `get_note` on `y` reports "Error: Note 'y' not found" leaving
the store unchanged.  The store is a dict (its keys are distinct) and id and
body are non-empty per the data model. -/
theorem create_then_delete (store : Dict) (y z : String)
    (hnodup : (Dict.keys store).Nodup) (hy : y ≠ "") (hz : z ≠ "") :
    (handle_call_tool "delete_note" [("note_id", y)]
        (handle_call_tool "create_note" [("note_id", y), ("content", z)] store).2).1 =
      [textContent ("Note '" ++ y ++ "' deleted successfully")] ∧
    ("- " ++ y) ∉
      (Dict.keys (handle_call_tool "delete_note" [("note_id", y)]
          (handle_call_tool "create_note" [("note_id", y), ("content", z)] store).2).2).map
        (fun note_id => "- " ++ note_id) ∧
    handle_call_tool "get_note" [("note_id", y)]
        (handle_call_tool "delete_note" [("note_id", y)]
          (handle_call_tool "create_note" [("note_id", y), ("content", z)] store).2).2 =
      ([textContent ("Error: Note '" ++ y ++ "' not found")],
       (handle_call_tool "delete_note" [("note_id", y)]
         (handle_call_tool "create_note" [("note_id", y), ("content", z)] store).2).2) := by
  have hcreate : handle_call_tool "create_note" [("note_id", y), ("content", z)] store =
      ([textContent ("Note '" ++ y ++ "' created successfully")], Dict.set store y z) := by
    simp [handle_call_tool, Dict.get, hy, hz]
  have hnodup1 : (Dict.keys (Dict.set store y z)).Nodup :=
    Dict.nodup_keys_set store y z hnodup
  have hdel : handle_call_tool "delete_note" [("note_id", y)] (Dict.set store y z) =
      ([textContent ("Note '" ++ y ++ "' deleted successfully")],
       Dict.del (Dict.set store y z) y) := by
    simp [handle_call_tool, Dict.get, hy, Dict.get_set_self store y z]
  refine ⟨?_, ?_, ?_⟩
  · simp only [hcreate, hdel]
  · simp only [hcreate, hdel]
    intro hmem
    obtain ⟨a, hain, heq⟩ := List.mem_map.1 hmem
    have ha : a = y := string_append_left_cancel "- " a y heq
    exact Dict.not_mem_keys_del (Dict.set store y z) y hnodup1 (ha ▸ hain)
  · simp only [hcreate, hdel]
    have hnone : Dict.get (Dict.del (Dict.set store y z) y) y = none :=
      Dict.get_del_self (Dict.set store y z) y hnodup1
    simp [handle_call_tool, Dict.get, hy, hnone]

/-- C3 witness: `y = "y"`, `z = "z"` on the empty store. -/
theorem create_then_delete_witness :
    (handle_call_tool "delete_note" [("note_id", "y")]
        (handle_call_tool "create_note" [("note_id", "y"), ("content", "z")] []).2).1 =
      [textContent ("Note '" ++ "y" ++ "' deleted successfully")] ∧
    ("- " ++ "y") ∉
      (Dict.keys (handle_call_tool "delete_note" [("note_id", "y")]
          (handle_call_tool "create_note" [("note_id", "y"), ("content", "z")] []).2).2).map
        (fun note_id => "- " ++ note_id) ∧
    handle_call_tool "get_note" [("note_id", "y")]
        (handle_call_tool "delete_note" [("note_id", "y")]
          (handle_call_tool "create_note" [("note_id", "y"), ("content", "z")] []).2).2 =
      ([textContent ("Error: Note '" ++ "y" ++ "' not found")],
       (handle_call_tool "delete_note" [("note_id", "y")]
         (handle_call_tool "create_note" [("note_id", "y"), ("content", "z")] []).2).2) :=
  create_then_delete [] "y" "z" (by decide) (by decide) (by decide)

/-- C4 (amended): `get_note` never changes the store, and returns exactly one
of three texts: "Error: note_id is required" when `note_id` is missing OR
bound to the empty string, "Error: Note '<note_id>' not found" when `note_id`
is present, non-empty and not a key of the store, and otherwise
"Note '<note_id>':" followed by a newline and the stored body. -/
theorem get_note_spec (store arguments : Dict) :
    (handle_call_tool "get_note" arguments store).2 = store ∧
    ((Dict.get arguments "note_id" = none ∨ Dict.get arguments "note_id" = some "") →
      (handle_call_tool "get_note" arguments store).1 =
        [textContent "Error: note_id is required"]) ∧
    (∀ note_id, Dict.get arguments "note_id" = some note_id → note_id ≠ "" →
      Dict.get store note_id = none →
      (handle_call_tool "get_note" arguments store).1 =
        [textContent ("Error: Note '" ++ note_id ++ "' not found")]) ∧
    (∀ note_id body, Dict.get arguments "note_id" = some note_id → note_id ≠ "" →
      Dict.get store note_id = some body →
      (handle_call_tool "get_note" arguments store).1 =
        [textContent ("Note '" ++ note_id ++ "':\n" ++ body)]) := by
  refine ⟨?_, ?_, ?_, ?_⟩
  · cases hn : Dict.get arguments "note_id" with
    | none => simp [handle_call_tool, hn]
    | some nid =>
      by_cases he : nid = ""
      · simp [handle_call_tool, hn, he]
      · cases hs : Dict.get store nid <;> simp [handle_call_tool, hn, he, hs]
  · intro h
    rcases h with h | h <;> simp [handle_call_tool, h]
  · intro nid hn hne hs
    simp [handle_call_tool, hn, hne, hs]
  · intro nid body hn hne hs
    simp [handle_call_tool, hn, hne, hs]

/-- C4 counterexample: with `note_id` present but bound to `""` and `""` not a
key of the (empty) store, the claim as stated predicts the not-found text
"Error: Note '' not found", but the code returns the missing-argument text. -/
theorem get_note_spec_counterexample :
    Dict.get [("note_id", "")] "note_id" = some "" ∧
    Dict.get ([] : Dict) "" = none ∧
    (handle_call_tool "get_note" [("note_id", "")] []).1 ≠
      [textContent "Error: Note '' not found"] ∧
    (handle_call_tool "get_note" [("note_id", "")] []).1 =
      [textContent "Error: note_id is required"] := by
  refine ⟨rfl, rfl, by decide, rfl⟩

/-- C4 witness: each behaviour of the amended theorem exercised at a concrete
input (missing id, empty id, absent id, present id). -/
theorem get_note_spec_witness :
    (handle_call_tool "get_note" [] [("a", "b")]).2 = [("a", "b")] ∧
    (handle_call_tool "get_note" [] [("a", "b")]).1 =
      [textContent "Error: note_id is required"] ∧
    (handle_call_tool "get_note" [("note_id", "c")] [("a", "b")]).1 =
      [textContent ("Error: Note '" ++ "c" ++ "' not found")] ∧
    (handle_call_tool "get_note" [("note_id", "a")] [("a", "b")]).1 =
      [textContent ("Note '" ++ "a" ++ "':\n" ++ "b")] :=
  ⟨(get_note_spec [("a", "b")] []).1,
   (get_note_spec [("a", "b")] []).2.1 (Or.inl rfl),
   (get_note_spec [("a", "b")] [("note_id", "c")]).2.2.1 "c" rfl (by decide) rfl,
   (get_note_spec [("a", "b")] [("note_id", "a")]).2.2.2 "a" "b" rfl (by decide) rfl⟩

/-- C6: `read_resource` raises (protocol-level) "Unsupported URI scheme: <uri>"
exactly when the uri does not start with "note://"; when it does, it raises
"Note not found: <id>" exactly when the prefix-stripped id is not a key of the
store, and otherwise returns the raw stored body, unwrapped. -/
theorem read_resource_spec (uri : String) (store : Dict) :
    (handle_read_resource uri store =
        Except.error ("Unsupported URI scheme: " ++ uri) ↔
      pyStartswith uri "note://" = false) ∧
    (pyStartswith uri "note://" = true →
      ((handle_read_resource uri store =
           Except.error ("Note not found: " ++ pyDrop uri 7) ↔
         Dict.get store (pyDrop uri 7) = none) ∧
       (∀ body, Dict.get store (pyDrop uri 7) = some body →
         handle_read_resource uri store = Except.ok body))) := by
  constructor
  · constructor
    · intro h
      by_cases hs : pyStartswith uri "note://" = false
      · exact hs
      · exfalso
        rw [Bool.not_eq_false] at hs
        cases hg : Dict.get store (pyDrop uri 7) with
        | none =>
          simp only [handle_read_resource, hs, hg] at h
          simp at h
          exact notfound_msg_ne_scheme_msg (pyDrop uri 7) uri h
        | some body =>
          simp only [handle_read_resource, hs, hg] at h
          simp at h
    · intro hs
      simp [handle_read_resource, hs]
  · intro hs
    refine ⟨⟨?_, ?_⟩, ?_⟩
    · intro h
      cases hg : Dict.get store (pyDrop uri 7) with
      | none => rfl
      | some body =>
        simp only [handle_read_resource, hs, hg] at h
        simp at h
    · intro hg
      simp [handle_read_resource, hs, hg]
    · intro body hg
      simp [handle_read_resource, hs, hg]

/-- C6 witness: a non-note uri, a note uri absent from the store, and a note
uri present in the store. -/
theorem read_resource_spec_witness :
    handle_read_resource "http://x" [] =
      Except.error ("Unsupported URI scheme: " ++ "http://x") ∧
    handle_read_resource "note://a" [] =
      Except.error ("Note not found: " ++ pyDrop "note://a" 7) ∧
    handle_read_resource "note://a" [("a", "b")] = Except.ok "b" :=
  ⟨(read_resource_spec "http://x" []).1.mpr rfl,
   ((read_resource_spec "note://a" []).2 rfl).1.mpr rfl,
   ((read_resource_spec "note://a" [("a", "b")]).2 rfl).2 "b" rfl⟩

/-- C7: every id stored in the dict appears in `list_resources` as the
descriptor with uri "note://<id>", name "Note: <id>", description
"A note with ID <id>" and mimeType "text/plain", the whole listing following
store enumeration order; and `read_resource` on "note://<id>" returns the very
body that `get_note` reports inside its text result.  Ids are non-empty per
the data model. -/
theorem resource_tool_symmetry (store : Dict) (id body : String)
    (hget : Dict.get store id = some body) (hid : id ≠ "") :
    ({ uri := "note://" ++ id, name := "Note: " ++ id,
       description := "A note with ID " ++ id, mimeType := "text/plain" } : Resource) ∈
      handle_list_resources store ∧
    handle_list_resources store =
      (Dict.keys store).map (fun note_id =>
        { uri := "note://" ++ note_id, name := "Note: " ++ note_id,
          description := "A note with ID " ++ note_id, mimeType := "text/plain" }) ∧
    handle_read_resource ("note://" ++ id) store = Except.ok body ∧
    (handle_call_tool "get_note" [("note_id", id)] store).1 =
      [textContent ("Note '" ++ id ++ "':\n" ++ body)] := by
  refine ⟨?_, rfl, ?_, ?_⟩
  · simp only [handle_list_resources]
    exact List.mem_map.2 ⟨id, Dict.mem_keys_of_get store id body hget, rfl⟩
  · have h1 : pyStartswith ("note://" ++ id) "note://" = true :=
      pyStartswith_append "note://" id
    have h2 : pyDrop ("note://" ++ id) 7 = id := pyDrop_note_append id
    simp [handle_read_resource, h1, h2, hget]
  · simp [handle_call_tool, Dict.get, hid, hget]

/-- C7 witness: the store `[("a", "b")]` with id "a" and body "b". -/
theorem resource_tool_symmetry_witness :
    ({ uri := "note://" ++ "a", name := "Note: " ++ "a",
       description := "A note with ID " ++ "a", mimeType := "text/plain" } : Resource) ∈
      handle_list_resources [("a", "b")] ∧
    handle_list_resources [("a", "b")] =
      (Dict.keys [("a", "b")]).map (fun note_id =>
        { uri := "note://" ++ note_id, name := "Note: " ++ note_id,
          description := "A note with ID " ++ note_id, mimeType := "text/plain" }) ∧
    handle_read_resource ("note://" ++ "a") [("a", "b")] = Except.ok "b" ∧
    (handle_call_tool "get_note" [("note_id", "a")] [("a", "b")]).1 =
      [textContent ("Note '" ++ "a" ++ "':\n" ++ "b")] :=
  resource_tool_symmetry [("a", "b")] "a" "b" rfl (by decide)

/-- C9: on every branch, for every tool name, arguments and store,
`call_tool` returns a one-element list whose element is a text content —
never empty, never longer. -/
theorem call_tool_single_text (name : String) (arguments store : Dict) :
    ∃ s : String, (handle_call_tool name arguments store).1 =
      [{ type := "text", text := s }] := by
  by_cases h1 : name = "create_note"
  · cases hn : Dict.get arguments "note_id" with
    | none =>
      exact ⟨"Error: Both note_id and content are required",
        by simp [handle_call_tool, h1, hn, textContent]⟩
    | some nid =>
      cases hc : Dict.get arguments "content" with
      | none =>
        exact ⟨"Error: Both note_id and content are required",
          by simp [handle_call_tool, h1, hn, hc, textContent]⟩
      | some c =>
        by_cases he : nid = ""
        · exact ⟨"Error: Both note_id and content are required",
            by simp [handle_call_tool, h1, hn, hc, he, textContent]⟩
        · by_cases hce : c = ""
          · exact ⟨"Error: Both note_id and content are required",
              by simp [handle_call_tool, h1, hn, hc, he, hce, textContent]⟩
          · exact ⟨"Note '" ++ nid ++ "' created successfully",
              by simp [handle_call_tool, h1, hn, hc, he, hce, textContent]⟩
  · by_cases h2 : name = "get_note"
    · cases hn : Dict.get arguments "note_id" with
      | none =>
        exact ⟨"Error: note_id is required",
          by simp [handle_call_tool, h1, h2, hn, textContent]⟩
      | some nid =>
        by_cases he : nid = ""
        · exact ⟨"Error: note_id is required",
            by simp [handle_call_tool, h1, h2, hn, he, textContent]⟩
        · cases hs : Dict.get store nid with
          | none =>
            exact ⟨"Error: Note '" ++ nid ++ "' not found",
              by simp [handle_call_tool, h1, h2, hn, he, hs, textContent]⟩
          | some body =>
            exact ⟨"Note '" ++ nid ++ "':\n" ++ body,
              by simp [handle_call_tool, h1, h2, hn, he, hs, textContent]⟩
    · by_cases h3 : name = "list_notes"
      · by_cases hs : store.isEmpty = true
        · exact ⟨"No notes available",
            by simp [handle_call_tool, h1, h2, h3, hs, textContent]⟩
        · exact ⟨"Available notes:\n" ++ String.intercalate "\n"
              ((Dict.keys store).map (fun note_id => "- " ++ note_id)),
            by simp [handle_call_tool, h1, h2, h3, hs, textContent]⟩
      · by_cases h4 : name = "delete_note"
        · cases hn : Dict.get arguments "note_id" with
          | none =>
            exact ⟨"Error: note_id is required",
              by simp [handle_call_tool, h1, h2, h3, h4, hn, textContent]⟩
          | some nid =>
            by_cases he : nid = ""
            · exact ⟨"Error: note_id is required",
                by simp [handle_call_tool, h1, h2, h3, h4, hn, he, textContent]⟩
            · cases hs : Dict.get store nid with
              | none =>
                exact ⟨"Error: Note '" ++ nid ++ "' not found",
                  by simp [handle_call_tool, h1, h2, h3, h4, hn, he, hs, textContent]⟩
              | some body =>
                exact ⟨"Note '" ++ nid ++ "' deleted successfully",
                  by simp [handle_call_tool, h1, h2, h3, h4, hn, he, hs, textContent]⟩
        · exact ⟨"Error: Unknown tool '" ++ name ++ "'",
            by simp [handle_call_tool, h1, h2, h3, h4, textContent]⟩

end NotesServer
